import Mathlib

/-!
Verification development for the pysatMadrigal repository.

The definitions below are a shallow embedding of the Python code in
`pysatMadrigal/instruments/methods/general.py` (the general Madrigal
loader and its helpers).  Python strings are Lean `String`s, Python
lists/tuples are Lean `List`s, Python dicts (which preserve insertion
order) are association lists, raised exceptions are `Except.error`
values, and `logger.warning` calls are collected in an explicit warning
list.  `datetime.date` values are modelled by their ordinal day count
(an `Int`), so `timedelta(days=1)` is `+ 1` and date comparison is the
integer order.
-/

namespace PysatMadrigal

/-- Python `str.lower()` restricted to the ASCII case used by the data
files: lowercases every character. -/
def pyLower (s : String) : String := ⟨s.data.map Char.toLower⟩

/-- Helper for `pyFind`: index (counting from `i`) of the first
occurrence of `needle` in the remaining character list, if any. -/
def strFindAux (needle : List Char) : List Char → Nat → Option Nat
  | [], i => if needle.isEmpty then some i else none
  | c :: rest, i =>
    if needle.isPrefixOf (c :: rest) then some i else strFindAux needle rest (i + 1)

/-- Python `s.find(needle)`: the index of the first occurrence of
`needle` in `s`, or `-1` when there is none. -/
def pyFind (s needle : String) : Int :=
  match strFindAux needle.data s.data 0 with
  | some i => (i : Int)
  | none => -1

/-- Boolean substring test on character lists: does `needle` occur
contiguously inside the second list? -/
def containsSub (needle : List Char) : List Char → Bool
  | [] => needle.isEmpty
  | c :: rest => needle.isPrefixOf (c :: rest) || containsSub needle rest

/-- Boolean substring test on strings: does `needle` occur inside `hay`? -/
def strContainsB (hay needle : String) : Bool := containsSub needle.data hay.data

/-- Python `repr` of a string (single-quoted). -/
def pyQuote (s : String) : String := "'" ++ s ++ "'"

/-- Python `str` of a list of strings, e.g. `['year', 'month']`. -/
def pyStrListRepr (l : List String) : String :=
  "[" ++ String.intercalate ", " (l.map pyQuote) ++ "]"

/-- Python `str` of a tuple of strings, e.g. `('time', 'gdalt')`; a
one-element tuple renders with a trailing comma, e.g. `('time',)`. -/
def pyStrTupleRepr (l : List String) : String :=
  match l with
  | [x] => "(" ++ pyQuote x ++ ",)"
  | _ => "(" ++ String.intercalate ", " (l.map pyQuote) ++ ")"

/-- Rendering of a pandas column `Index` holding strings, as interpolated
into the unknown-coordinate-key error message. -/
def pdIndexRepr (cols : List String) : String :=
  "Index(" ++ pyStrListRepr cols ++ ", dtype='object')"

/-- Rendering of a numpy array of strings (space separated), as
interpolated into the unknown-data-variable warning message. -/
def npStrArrayRepr (l : List String) : String :=
  "[" ++ String.intercalate " " (l.map pyQuote) ++ "]"

/-- The required time columns checked by `load`
(`general.py`, line 674). -/
def time_keys : List String := ["year", "month", "day", "hour", "min", "sec"]

/-- Warnings emitted through `logger.warning` during `load`. -/
inductive LoadWarning where
  | unknownDataVars (bad good : List String)
  | duplicatedTimes
deriving DecidableEq

/-- The warning text built by `load` (`general.py`, lines 734-737 and
784-787). -/
def LoadWarning.message : LoadWarning → String
  | .unknownDataVars bad good =>
      "unknown data variable(s) " ++ npStrArrayRepr bad ++ ", using only: "
        ++ npStrArrayRepr good
  | .duplicatedTimes =>
      "duplicated time indices, consider specifing additional coordinates and storing the data as an xarray Dataset"

/-- The `ValueError`s raised by the schema-driven part of `load`,
carrying the data interpolated into their messages. -/
inductive LoadError where
  | missingTimeKeys (missing : List String)
  | unknownCoordKey (xcoords cols : List String)
  | allDataVarsUnknown (xvars : List String)
  | coordMergeMismatch (ltest lenData : Nat) (estr : String)
deriving DecidableEq

/-- The error text built by `load` (`general.py`, lines 678-679,
711-714, 722-724 and 774-776). -/
def LoadError.message : LoadError → String
  | .missingTimeKeys missing =>
      "unable to construct time index,  missing " ++ pyStrListRepr missing
  | .unknownCoordKey xcoords cols =>
      "unknown coordinate key in [" ++ pyStrTupleRepr xcoords ++ "], use only: "
        ++ pdIndexRepr cols
  | .allDataVarsUnknown xvars =>
      "All data variables " ++ pyStrListRepr xvars ++ " are unknown."
  | .coordMergeMismatch ltest lenData estr =>
      "coordinates not supplied for all data columns: " ++ toString ltest
        ++ " != " ++ toString lenData ++ "; " ++ estr

/-- The time-column validation in `load` (`general.py`, lines 674-679):
if any of the six required keys is absent from the table columns, a
`ValueError` is raised naming the missing ones (`time_keys` is first
narrowed to the keys not present, then interpolated into the message). -/
def constructTimeIndexCheck (cols : List String) : Except LoadError Unit :=
  if time_keys.all (fun key => cols.contains key) then
    Except.ok ()
  else
    Except.error (.missingTimeKeys (time_keys.filter (fun key => ! cols.contains key)))

/-- The module-level file type table (`general.py`, line 23). -/
def file_types : List (String × String) :=
  [("hdf5", "hdf5"), ("netCDF4", "netCDF4"), ("simple", "simple.gz")]

/-- The keys of `file_types`, in insertion order. -/
def fileTypeKeys : List String := file_types.map Prod.fst

/-- File-type routing for one filename (`general.py`, lines 539-543):
the inner loop assigns `fname` to the first file type whose key occurs
in `fname` at a strictly positive index (`fname.find(ftype) > 0`),
breaking at the first match; no match leaves the file unassigned. -/
def routeFname (fname : String) : Option String :=
  fileTypeKeys.find? (fun ftype => decide (0 < pyFind fname ftype))

/-- One iteration of the outer routing loop of `load` (`general.py`,
lines 539-543): the filename is appended to the bucket of the file type
chosen by `routeFname`; a filename matching no type leaves the buckets
unchanged (no warning, no error). -/
def routeStep (acc : List (String × List String)) (fname : String) :
    List (String × List String) :=
  match routeFname fname with
  | some ftype => acc.map (fun p => if p.1 = ftype then (p.1, p.2 ++ [fname]) else p)
  | none => acc

/-- The outer routing loop of `load` (`general.py`, lines 538-543):
buckets are initialised empty for every file type and each filename is
routed by `routeStep`. -/
def buildLoadFileTypes (fnames : List String) : List (String × List String) :=
  fnames.foldl routeStep (fileTypeKeys.map (fun ftype => (ftype, ([] : List String))))

/-- A coordinate schema: the `xarray_coords` dict, an insertion-ordered
map from dimension-key tuples to lists of data-variable names. -/
abbrev Schema := List (List String × List String)

/-- Insertion into a Python dict modelled as an association list: an
existing key keeps its position and has its value overwritten, a new
key is appended. -/
def dictInsert {α : Type} (d : List (Nat × α)) (k : Nat) (v : α) : List (Nat × α) :=
  if d.any (fun p => p.1 == k) then
    d.map (fun p => if p.1 = k then (k, v) else p)
  else
    d ++ [(k, v)]

/-- The dict comprehension in `load` (`general.py`, lines 698-699):
`len_dict` maps the number of dimensions of each group to the group
itself, so a later group with the same number of dimensions overwrites
an earlier one. -/
def lenDict (keys : List (List String)) : List (Nat × List String) :=
  keys.foldl (fun d key => dictInsert d key.length key) []

/-- One step of a descending insertion sort on `Nat`. -/
def insertDesc (n : Nat) : List Nat → List Nat
  | [] => [n]
  | m :: rest => if n > m then n :: m :: rest else m :: insertDesc n rest

/-- Python `sorted(keys, reverse=True)` on the (distinct) dict keys. -/
def sortDesc (l : List Nat) : List Nat := l.foldr insertDesc []

/-- The processing order of dimension groups (`general.py`, lines
696-701): the groups surviving in `len_dict`, listed by decreasing
number of dimensions. -/
def coordOrder (schema : Schema) : List (List String) :=
  let d := lenDict (schema.map Prod.fst)
  (sortDesc (d.map Prod.fst)).map (fun n => (d.lookup n).getD [])

/-- The per-group validation in `load` (`general.py`, lines 708-740) for
one dimension group with keys `xcoords` and declared data variables
`xvars` against the table columns `cols`: unknown dimension keys are
fatal; if some data variables are unknown, the group raises when all
are unknown, warns and reduces the list when only some are, and keeps
the declared list untouched otherwise.  Returns the variable list the
group continues with, plus any warning emitted. -/
def processGroup (cols xcoords xvars : List String) :
    Except LoadError (List String × List LoadWarning) :=
  if ¬ xcoords.all (fun xkey => cols.contains (pyLower xkey)) then
    Except.error (.unknownCoordKey xcoords cols)
  else if ¬ xvars.all (fun xkey => cols.contains (pyLower xkey)) then
    let good := xvars.filter (fun xkey => cols.contains (pyLower xkey))
    if good.length = 0 then
      Except.error (.allDataVarsUnknown xvars)
    else if good.length < xvars.length then
      Except.ok (good,
        [.unknownDataVars (xvars.filter (fun xkey => ! cols.contains (pyLower xkey))) good])
    else
      Except.ok (xvars, [])
  else
    Except.ok (xvars, [])

/-- Assignment to an existing key of the `xarray_coords` dict
(`general.py`, line 740): the key keeps its position, the value is
replaced. -/
def dictUpdate (schema : Schema) (key vnew : List String) : Schema :=
  schema.map (fun p => if p.1 = key then (key, vnew) else p)

/-- The dimension-group loop of `load` (`general.py`, lines 707-753)
restricted to its observable effects on the schema dict and the warning
log: groups are visited in `coordOrder`, each reads the current value
of its entry in the dict, and the some-variables-missing branch writes
the reduced list back into the caller-supplied dict (`xarray_coords[xcoords]
= list(temp)`).  In the remaining branches the written value equals the
value read, so the unconditional `dictUpdate` below is the identity there. -/
def loadSchemaPass (cols : List String) (schema : Schema) :
    Except LoadError (Schema × List LoadWarning) :=
  (coordOrder schema).foldlM
    (fun st xcoords => do
      let xvars := (st.1.lookup xcoords).getD []
      let res ← processGroup cols xcoords xvars
      pure (dictUpdate st.1 xcoords res.1, st.2 ++ res.2))
    (schema, ([] : List LoadWarning))

/-- The `estr` built in the post-merge check when recovered variables
are fewer than the declared columns (`general.py`, lines 766-769). -/
def missingEstr (lcols testVars : List String) : String :=
  "missing: " ++ String.intercalate " " (lcols.filter (fun dvar => ! testVars.contains dvar))

/-- The `estr` built in the post-merge check when recovered variables
exceed the declared columns (`general.py`, lines 770-773). -/
def extraEstr (lcols testVars : List String) : String :=
  "have extra: " ++ String.intercalate " " (testVars.filter (fun tvar => ! lcols.contains tvar))

/-- The post-merge consistency check of `load` (`general.py`, lines
755-776): `lcols` are the data-frame columns (including `time`),
`testVars` the variables of the merged dataset.  The source computes a
`missing: ...` string when `ltest < len_data` but the `raise` statement
sits inside the `else` (extra-variables) branch, so in the missing case
the string is discarded and control falls through without an error. -/
def postMergeCheck (lcols testVars : List String) : Except LoadError Unit :=
  if testVars.length ≠ lcols.length then
    if testVars.length < lcols.length then
      let _estr := missingEstr lcols testVars
      Except.ok ()
    else
      Except.error (.coordMergeMismatch testVars.length lcols.length (extraEstr lcols testVars))
  else
    Except.ok ()

/-- Python `pandas.Index.duplicated().any()`: does some value occur
more than once in the list? -/
def anyDuplicated {α : Type} [DecidableEq α] : List α → Bool
  | [] => false
  | x :: rest => rest.contains x || anyDuplicated rest

/-- The flat (no-schema) branch of `load` (`general.py`, lines 777-787):
the datetime index is attached to the rows (no row is dropped) and a
warning is logged when the index holds duplicate timestamps. -/
def flatTimeIndex {α : Type} (rows : List α) (times : List Int) :
    List (Int × α) × List LoadWarning :=
  (times.zip rows,
    if anyDuplicated times then [LoadWarning.duplicatedTimes] else [])

/-- A Madrigal experiment descriptor as used by `good_exp`
(`general.py`, lines 1032-1066): the experiment id and the ordinal day
counts of `dt.date(startyear, startmonth, startday)` and
`dt.date(endyear, endmonth, endday)`. -/
structure MadrigalExperiment where
  id : Int
  startDate : Int
  endDate : Int
deriving DecidableEq

/-- `good_exp` (`general.py`, lines 1032-1066): `gflag` starts `False`;
an experiment with the sentinel id `-1` stays bad; without a date
filter any other experiment is good; with a date filter the experiment
is good when some requested date lies between its start date and one
day after its end date (`exp_end = date(...) + timedelta(days=1)`),
both bounds inclusive. -/
def good_exp (exp : MadrigalExperiment) (dateArray : Option (List Int)) : Bool :=
  if exp.id ≠ -1 then
    match dateArray with
    | none => true
    | some dates =>
      let expStart := exp.startDate
      let expEnd := exp.endDate + 1
      dates.any (fun dateVal => decide (expStart ≤ dateVal) && decide (dateVal ≤ expEnd))
  else
    false

/-- The `time_series` dict of `known_madrigal_inst_codes`
(`general.py`, lines 57-66). -/
def time_series_codes : List (String × String) :=
  [("120", "Interplanetary Mag Field and Solar Wind"), ("210", "Geophysical Indicies"),
   ("211", "AE Index"), ("212", "DST Index"),
   ("170", "POES Spacecraft Particle Flux"), ("180", "DMSP-Auroral Boundary Index"),
   ("8100", "Defense Meteorological Satellite Program"), ("8105", "Van Allen Probes"),
   ("8400", "Jason/Topex Ocean TEC"), ("8250", "Jicamarca Magnetometer"),
   ("8255", "Piura Magnetometer"), ("8300", "Sodankyla Magnetometer"),
   ("7800", "Green Bank Telescope")]

/-- The `multi_dim` dict of `known_madrigal_inst_codes`
(`general.py`, lines 67-212). -/
def multi_dim_codes : List (String × String) :=
  [("10", "Jicamarca ISR"), ("20", "Arecibo ISR Linefeed"),
   ("21", "Arecibo ISR Gregorian"), ("22", "Arecibo ISR Velocity Vector"),
   ("25", "MU ISR"), ("30", "Millstone Hill ISR"),
   ("31", "Millstone Hill UHF Steerable Antenna"), ("32", "Millstone Hill UHF Zenith Antenna"),
   ("40", "St. Santin ISR"), ("41", "St. Santin Nançay Receiver"),
   ("42", "St. Santin Mende Receiver"), ("43", "St. Santin Monpazier Receiver"),
   ("45", "Kharkov Ukraine ISR"), ("50", "Chatanika ISR"),
   ("53", "ISTP Irkutsk Radar"), ("57", "UK Malvern ISR"),
   ("61", "Poker Flat ISR"), ("70", "EISCAT combined ISRs"),
   ("71", "EISCAT Kiruna UHF ISR"), ("72", "EISCAT Tromsø UHF ISR"),
   ("73", "EISCAT Sodankylä UHF ISR"), ("74", "EISCAT Tromsø VHF ISR"),
   ("75", "EISCAT Kiruna VHF ISR"), ("76", "EISCAT Sodankylä VHF ISR"),
   ("80", "Sondrestrom ISR"), ("85", "ALTAIR ISR"),
   ("91", "Resolute Bay North ISR"), ("92", "Resolute Bay Canada ISR"),
   ("95", "EISCAT Svalbard ISR Longyearbyen"), ("100", "QuJing ISR"),
   ("310", "TGCM/TIGCM model"), ("311", "AMIE Model"),
   ("312", "USU-TDIM Model"), ("320", "Solar sd Tides"),
   ("321", "Lunar sd Tides"), ("322", "GSWM model"),
   ("820", "Halley HF Radar"), ("830", "Syowa Station HF Radar"),
   ("845", "Kapuskasing HF Radar"), ("861", "Saskatoon HF Radar"),
   ("870", "Goose Bay HF Radar"), ("900", "Hankasalmi HF Radar"),
   ("910", "Stokkseyri HF Radar"), ("911", "Pykkvibaer HF Radar"),
   ("1040", "Arecibo MST Radar"), ("1140", "Poker Flat MST Radar"),
   ("1180", "SOUSY Svalbard MST Radar Longyearbyen"), ("1210", "Scott Base MF Radar"),
   ("1215", "Davis Antarctica MF radar"), ("1220", "Mawson MF Radar"),
   ("1221", "Rothera MF radar"), ("1230", "Christchurch MF Radar"),
   ("1240", "Adelaide MF Radar"), ("1245", "Rarotonga MF radar"),
   ("1254", "Tirunelveli MF radar"), ("1270", "Kauai MF radar"),
   ("1275", "Yamagawa MF radar"), ("1285", "Platteville MF radar"),
   ("1310", "Wakkanai MF radar"), ("1320", "Collm LF Radar"),
   ("1340", "Saskatoon MF Radar"), ("1375", "The Poker Flat MF radar"),
   ("1390", "Tromsø MF Radar"), ("1395", "Syowa MF Radar"),
   ("1400", "Halley MF Radar"), ("13", "JASMET Jicamarca All-Sky Specular Meteor Radar"),
   ("1539", "Ascension Island Meteor Radar"), ("1540", "Rothera Meteor Radar"),
   ("1560", "Atlanta meteor Radar"), ("1620", "Durham meteor Radar"),
   ("1750", "Obninsk meteor radar"), ("1775", "Esrange meteor radar"),
   ("1780", "Wuhan meteor radar"), ("1781", "Mohe meteor radar"),
   ("1782", "Beijing meteor radar"), ("1783", "Sanya meteor radar"),
   ("1784", "South Pole meteor radar"), ("1785", "Southern Argentina Agile Meteor Radar"),
   ("1786", "Cachoeira Paulista Meteor Radar"), ("1787", "Buckland Park Meteor Radar"),
   ("1788", "Kingston Meteor Radar"), ("1790", "Andes Meteor Radar"),
   ("1791", "Southern Cross Meteor Radar"), ("1792", "Las Campanas Meteor Radar"),
   ("1793", "CONDOR multi-static meteor radar system"), ("2090", "Christmas Island ST/MEDAC Radar"),
   ("2200", "Platteville ST/MEDAC Radar"), ("2550", "ULowell Digisonde MLH Radar"),
   ("2890", "Sondre Stromfjord Digisonde"), ("2900", "Sodankylä Ionosonde (SO166)"),
   ("2930", "Qaanaaq Digisonde ST/MEDAC Radars"), ("2950", "EISCAT Tromsø Dynasonde"),
   ("2951", "EISCAT Svalbard Dynasonde"), ("2952", "IRF Dynasonde at EISCAT site Kiruna"),
   ("5000", "South Pole Fabry-Perot"), ("5005", "Palmer Fabry Perot"),
   ("5015", "Arrival Heights Fabry-Perot"), ("5020", "Halley Fabry-Perot"),
   ("5060", "Mount John Fabry-Perot"), ("5140", "Fabry-Perot Arequipa"),
   ("5145", "Fabry-Perot Jicamarca"), ("5150", "Fabry-Perot Mobile"),
   ("5160", "Arecibo Fabry-Perot"), ("5190", "Kitt Peak H-alpha Fabry-Perot"),
   ("5240", "Fritz Peak Fabry-Perot"), ("5292", "Ann Arbor Fabry-Perot"),
   ("5300", "Peach Mountain Fabry-Perot"), ("5340", "Millstone Hill Fabry-Perot"),
   ("5360", "Millstone Hill High-Res Fabry-Perot"), ("5370", "Arecibo Imaging Doppler Fabry-Perot"),
   ("5380", "Culebra Fabry-Perot"), ("5430", "Watson Lake Fabry-Perot"),
   ("5460", "College Fabry-Perot"), ("5465", "Poker Flat all-sky scanning Fabry-Perot"),
   ("5470", "Fort Yukon Fabry-Perot"), ("5475", "Poker Flat Fabry-Perot"),
   ("5480", "Sondre Stromfjord Fabry-Perots"), ("5510", "Inuvik NWT Fabry-Perot"),
   ("5535", "Resolute Bay Fabry-Perot"), ("5540", "Thule Fabry-Perot"),
   ("5545", "Cariri Brazil FPI"), ("5546", "Cajazeiras Brazil FPI"),
   ("5547", "Pisgah Astronomical Research FPI"), ("5548", "Urbana Atmospheric Observatory FPI"),
   ("5549", "Kirtland Airforce Base FPI"), ("5550", "Virginia Tech FPI"),
   ("5551", "Peach Mountain (MiniME) FPI"), ("5552", "Merihill Peru FPI"),
   ("5553", "Nazca Peru FPI"), ("5554", "Eastern Kentucky FPI"),
   ("5600", "Jang Bogo Station FPI"), ("5700", "South Pole Michelson Interferometer"),
   ("5720", "Daytona Beach Michelson Interferometer"), ("5860", "Stockholm IR Michelson"),
   ("5900", "Sondrestrom Michelson Interferometer"), ("5950", "Resolute Bay Michelson Interferometer"),
   ("5980", "Eureka Michelson Interferometer"), ("6205", "Arecibo Potassium [K] lidar"),
   ("6206", "Arecibo Sodium [Na] lidar"), ("6300", "CEDAR lidar"),
   ("6320", "Colorado State sodium lidar"), ("6330", "Rayleigh lidar at the ALO - USU/CASS"),
   ("6340", "Andes Na T/W Lidar"), ("6350", "ALOMAR Sodium Lidar"),
   ("6360", "CU STAR Sodium Lidar"), ("6370", "USU Na lidar"),
   ("6380", "Poker Flat lidar"), ("7190", "USU CCD Imager"),
   ("7192", "USU Advanced Mesospheric Temperature Mapper"), ("7200", "BU Millstone All-Sky Imager"),
   ("7201", "BU Arecibo All-Sky Imager"), ("7202", "BU Asiago All-Sky Imager"),
   ("7203", "BU El Leoncito All-Sky Imager"), ("7204", "BU McDonald All-Sky Imager"),
   ("7205", "BU Rio Grande All-Sky Imager"), ("7206", "BU Jicamarca All-Sky Imager"),
   ("7240", "MIO"), ("7580", "All-sky cameras at Qaanaaq"),
   ("11", "Jicamarca Bistatic Radar"), ("840", "JULIA"),
   ("3000", "ARL UT TBB Receiver"), ("7600", "Chelmsford HS Ozone Radiometer"),
   ("7602", "Lancaster UK Ozone Radiometer"), ("7603", "Bridgewater MA Ozone Radiometer"),
   ("7604", "Union College Ozone Radiometer"), ("7605", "UNC Greensboro Ozone Radiometer"),
   ("7606", "Lynnfield HS Ozone Radiometer"), ("7607", "Alaska Pacific Ozone Radiometer"),
   ("7608", "Hermanus SA Ozone Radiometer"), ("7609", "Sanae Antarctic Ozone Radiometer"),
   ("7610", "Sodankylä Ozone Radiometer"), ("7611", "Lancaster2 UK Ozone Radiometer"),
   ("7612", "Haystack Ridge Ozone Radiometer"), ("7613", "Haystack NUC3 8-channel Ozone Radiometer"),
   ("7614", "Fairbanks Ozone Radiometer"), ("8001", "South Pole Scintillation Receiver"),
   ("8000", "World-wide GNSS Receiver Network"), ("8002", "McMurdo Scintillation Receiver"),
   ("8010", "GNSS Scintillation Network"), ("3010", "Davis Czerny-Turner Scanning Spectrophotometer"),
   ("3320", "Wuppertal (DE) Czerny-Turner OH Grating Spectrometer"), ("4470", "Poker Flat 4 Channel Filter Photometer"),
   ("4473", "Fort Yukon 4 Channel Filter Photometer"), ("4480", "Arecibo red line photometer"),
   ("4481", "Arecibo green line photometer"), ("7191", "USU Mesospheric Temperature Mapper")]

/-- `known_madrigal_inst_codes` (`general.py`, lines 40-221): with
`pandas_format=None` the merged dict `dict(**time_series, **multi_dim)`
is returned, otherwise one of the two halves. -/
def known_madrigal_inst_codes (pandasFormat : Option Bool) : List (String × String) :=
  match pandasFormat with
  | none => time_series_codes ++ multi_dim_codes
  | some true => time_series_codes
  | some false => multi_dim_codes

/-- Python `str(x)` for an argument that is either `None` or a string. -/
def pyStrOfOpt : Option String → String
  | none => "None"
  | some s => s

/-- Python `repr(x)` for an argument that is either `None` or a string. -/
def pyReprOfOpt : Option String → String
  | none => "None"
  | some s => pyQuote s

/-- `_check_madrigal_params` (`general.py`, lines 1321-1358).  The
`user` and `password` arguments are modelled as `Option String`:
`some s` is a Python `str` (of any length, including the empty string)
and `none` covers `None` or any other non-`str` value, since the
source's only test on them is `isinstance(..., str)`.  The instrument
code is rejected unless its `str()` is a key of
`known_madrigal_inst_codes(None)`. -/
def _check_madrigal_params (instCode user password : Option String) : Except String Unit :=
  let instCodes := known_madrigal_inst_codes none
  if ¬ (instCodes.map Prod.fst).contains (pyStrOfOpt instCode) then
    Except.error ("Unknown Madrigal instrument code: " ++ pyReprOfOpt instCode
      ++ ". If this is a valid Madrigal instrument code, please update `pysatMadrigal.instruments.methods.general.known_madrigal_inst_codes`.")
  else if ¬ (user.isSome && password.isSome) then
    Except.error "The madrigal database requries a username and password.  Please input these as user='firstname lastname' and password='myname@email.address' in this function."
  else
    Except.ok ()

/-! Helper lemmas shared by the claim theorems. -/

theorem data_append (a b : String) : (a ++ b).data = a.data ++ b.data := rfl

theorem containsSub_append_self (needle rest : List Char) :
    containsSub needle (needle ++ rest) = true := by
  cases needle with
  | nil =>
    cases rest with
    | nil => rfl
    | cons c t => simp [containsSub]
  | cons c s =>
    show containsSub (c :: s) (c :: (s ++ rest)) = true
    simp only [containsSub, Bool.or_eq_true]
    left
    rw [ List.isPrefixOf_iff_prefix]
    exact List.prefix_append (c :: s) rest

theorem strContainsB_of_data (hay needle : String) (rest : List Char)
    (h : hay.data = needle.data ++ rest) : strContainsB hay needle = true := by
  unfold strContainsB
  rw [h]
  exact containsSub_append_self _ _

theorem scontains_iff {l : List String} {a : String} : l.contains a = true ↔ a ∈ l := by
  simp [List.contains]

/-! Claim theorems. -/

/-- C4: when loading an HDF5 or simple-format file whose table lacks any
of the columns `year, month, day, hour, min, sec`, the loader raises an
error whose message contains "unable to construct time index" and names
exactly the missing keys; if all six are present no such error is
raised. -/
theorem claim_C4_missing_time_columns (cols : List String) :
    (constructTimeIndexCheck cols = Except.ok () ↔ ∀ key ∈ time_keys, key ∈ cols) ∧
    ((∃ key ∈ time_keys, key ∉ cols) →
      constructTimeIndexCheck cols =
        Except.error (.missingTimeKeys (time_keys.filter (fun key => ! cols.contains key)))) ∧
    (∀ missing, constructTimeIndexCheck cols = Except.error (.missingTimeKeys missing) →
      strContainsB (LoadError.message (.missingTimeKeys missing))
          "unable to construct time index" = true ∧
      ∀ key, key ∈ missing ↔ (key ∈ time_keys ∧ key ∉ cols)) := by
  have hmsg : ∀ missing : List String,
      strContainsB (LoadError.message (.missingTimeKeys missing))
        "unable to construct time index" = true := by
    intro missing
    apply strContainsB_of_data _ _ ((",  missing ").data ++ (pyStrListRepr missing).data)
    show ("unable to construct time index,  missing " ++ pyStrListRepr missing).data = _
    rw [data_append, ← List.append_assoc]
    congr 1
  have hmember : ∀ missing, missing = time_keys.filter (fun key => ! cols.contains key) →
      ∀ key, key ∈ missing ↔ (key ∈ time_keys ∧ key ∉ cols) := by
    rintro missing rfl key
    simp [List.mem_filter]
  by_cases hall : time_keys.all (fun key => cols.contains key) = true
  · have hok : constructTimeIndexCheck cols = Except.ok () := by
      unfold constructTimeIndexCheck
      rw [if_pos hall]
    have hmem : ∀ key ∈ time_keys, key ∈ cols := by
      intro key hk
      exact scontains_iff.mp (List.all_eq_true.mp hall key hk)
    refine ⟨?_, ?_, ?_⟩
    · rw [hok]
      exact ⟨fun _ => hmem, fun _ => rfl⟩
    · rintro ⟨key, hk, hnot⟩
      exact absurd (hmem key hk) hnot
    · intro missing hcontra
      rw [hok] at hcontra
      exact absurd hcontra (by simp)
  · have herr : constructTimeIndexCheck cols =
        Except.error (.missingTimeKeys (time_keys.filter (fun key => ! cols.contains key))) := by
      unfold constructTimeIndexCheck
      rw [if_neg hall]
    refine ⟨?_, fun _ => herr, ?_⟩
    · rw [herr]
      constructor
      · intro hcontra
        exact absurd hcontra (by simp)
      · intro hmem
        exact absurd (List.all_eq_true.mpr
          (fun key hk => scontains_iff.mpr (hmem key hk))) hall
    · intro missing hmiss
      rw [herr] at hmiss
      have hfm : missing = time_keys.filter (fun key => ! cols.contains key) := by
        injection hmiss with h1
        injection h1 with h2
        exact h2.symm
      exact ⟨hmsg _, hmember missing hfm⟩

/-- Witness for C4 at a concrete table: columns lacking `min` and `sec`
produce the predicted error, whose message contains the required text
and whose key list is exactly the missing keys. -/
theorem claim_C4_missing_time_columns_witness :
    constructTimeIndexCheck ["year", "month", "day", "hour", "recno"] =
      Except.error (.missingTimeKeys ["min", "sec"]) ∧
    strContainsB (LoadError.message (.missingTimeKeys ["min", "sec"]))
        "unable to construct time index" = true := by
  have h := claim_C4_missing_time_columns ["year", "month", "day", "hour", "recno"]
  have herr := h.2.1 ⟨"min", by decide, by decide⟩
  have hfilter : (time_keys.filter
      (fun key => ! (["year", "month", "day", "hour", "recno"] : List String).contains key))
      = ["min", "sec"] := by decide
  rw [hfilter] at herr
  exact ⟨herr, (h.2.2 ["min", "sec"] herr).1⟩

theorem strContainsB_of_split (hay needle rest : String) (h : hay = needle ++ rest) :
    strContainsB hay needle = true := by
  apply strContainsB_of_data hay needle rest.data
  rw [h, data_append]

/-- C5: for every flat (no-schema) load whose constructed datetime index
contains duplicate timestamps, the loader keeps all rows (output row
count equals input row count) and emits a logged warning containing
"duplicated time indices"; no rows are dropped and no error is raised
(the flat branch contains no raise statement). -/
theorem claim_C5_flat_duplicate_times {α : Type} (rows : List α) (times : List Int)
    (hlen : times.length = rows.length) :
    (flatTimeIndex rows times).1.length = rows.length ∧
    (anyDuplicated times = true →
      (flatTimeIndex rows times).2 = [LoadWarning.duplicatedTimes] ∧
      strContainsB (LoadWarning.message LoadWarning.duplicatedTimes)
          "duplicated time indices" = true) ∧
    (anyDuplicated times = false → (flatTimeIndex rows times).2 = []) := by
  refine ⟨?_, ?_, ?_⟩
  · show (times.zip rows).length = rows.length
    rw [List.length_zip, hlen, min_self]
  · intro hdup
    refine ⟨by simp [flatTimeIndex, hdup], ?_⟩
    apply strContainsB_of_split _ _
      ", consider specifing additional coordinates and storing the data as an xarray Dataset"
    decide
  · intro hndup
    simp [flatTimeIndex, hndup]

/-- Witness for C5: a two-row table with identical timestamps keeps both
rows and logs the duplicate-times warning. -/
theorem claim_C5_flat_duplicate_times_witness :
    (flatTimeIndex ([0, 1] : List Nat) [5, 5]).1.length = 2 ∧
    (flatTimeIndex ([0, 1] : List Nat) [5, 5]).2 = [LoadWarning.duplicatedTimes] ∧
    strContainsB (LoadWarning.message LoadWarning.duplicatedTimes)
        "duplicated time indices" = true := by
  have h := claim_C5_flat_duplicate_times ([0, 1] : List Nat) [5, 5] (by decide)
  have hd := h.2.1 (by decide)
  exact ⟨h.1, hd.1, hd.2⟩

theorem processGroup_partial_vars (cols xcoords xvars : List String)
    (hdims : ∀ xkey ∈ xcoords, pyLower xkey ∈ cols)
    (hpresent : ∃ v ∈ xvars, pyLower v ∈ cols)
    (habsent : ∃ v ∈ xvars, pyLower v ∉ cols) :
    processGroup cols xcoords xvars =
      Except.ok (xvars.filter (fun v => cols.contains (pyLower v)),
        [.unknownDataVars (xvars.filter (fun v => ! cols.contains (pyLower v)))
          (xvars.filter (fun v => cols.contains (pyLower v)))]) := by
  obtain ⟨vp, hvp, hvpin⟩ := hpresent
  obtain ⟨va, hva, hvaout⟩ := habsent
  have hall : xcoords.all (fun xkey => cols.contains (pyLower xkey)) = true :=
    List.all_eq_true.mpr fun k hk => scontains_iff.mpr (hdims k hk)
  have hnvall : ¬ (xvars.all (fun xkey => cols.contains (pyLower xkey)) = true) := by
    intro hc
    exact hvaout (scontains_iff.mp (List.all_eq_true.mp hc va hva))
  have hgoodne : xvars.filter (fun xkey => cols.contains (pyLower xkey)) ≠ [] := by
    intro hc
    have hmemf : vp ∈ xvars.filter (fun xkey => cols.contains (pyLower xkey)) :=
      List.mem_filter.mpr ⟨hvp, scontains_iff.mpr hvpin⟩
    rw [hc] at hmemf
    exact absurd hmemf (List.not_mem_nil vp)
  have hglen : ¬ ((xvars.filter (fun xkey => cols.contains (pyLower xkey))).length = 0) := by
    intro hc
    exact hgoodne (List.length_eq_zero.mp hc)
  have hlt : (xvars.filter (fun xkey => cols.contains (pyLower xkey))).length
      < xvars.length := by
    apply List.length_filter_lt_length_iff_exists.mpr
    exact ⟨va, hva, by simp [hvaout]⟩
  unfold processGroup
  rw [if_neg (not_not_intro hall), if_pos hnvall, if_neg hglen, if_pos hlt]

/-- C3: for every dimension group in a supplied coordinate schema: an
absent declared dimension key is a fatal `ValueError` carrying the
group's keys and the available columns (message headed "unknown
coordinate key"); all declared data variables absent is a fatal error
listing them; only some absent emits a warning naming the missing ones,
reduces the group's variable list to those present, and returns without
error. -/
theorem claim_C3_group_validation (cols xcoords xvars : List String) :
    ((∃ xkey ∈ xcoords, pyLower xkey ∉ cols) →
      processGroup cols xcoords xvars = Except.error (.unknownCoordKey xcoords cols) ∧
      strContainsB (LoadError.message (.unknownCoordKey xcoords cols))
          "unknown coordinate key" = true) ∧
    ((∀ xkey ∈ xcoords, pyLower xkey ∈ cols) → xvars ≠ [] →
      (∀ v ∈ xvars, pyLower v ∉ cols) →
      processGroup cols xcoords xvars = Except.error (.allDataVarsUnknown xvars)) ∧
    ((∀ xkey ∈ xcoords, pyLower xkey ∈ cols) →
      (∃ v ∈ xvars, pyLower v ∈ cols) → (∃ v ∈ xvars, pyLower v ∉ cols) →
      processGroup cols xcoords xvars =
        Except.ok (xvars.filter (fun v => cols.contains (pyLower v)),
          [.unknownDataVars (xvars.filter (fun v => ! cols.contains (pyLower v)))
            (xvars.filter (fun v => cols.contains (pyLower v)))])) := by
  refine ⟨?_, ?_, ?_⟩
  · rintro ⟨xkey, hk, habs⟩
    have hnall : ¬ (xcoords.all (fun xkey => cols.contains (pyLower xkey)) = true) := by
      intro hc
      exact habs (scontains_iff.mp (List.all_eq_true.mp hc xkey hk))
    constructor
    · unfold processGroup
      rw [if_pos hnall]
    · apply strContainsB_of_data _ _
        ((" in [").data ++ ((pyStrTupleRepr xcoords).data
          ++ (("], use only: ").data ++ (pdIndexRepr cols).data)))
      show ("unknown coordinate key in [" ++ pyStrTupleRepr xcoords ++ "], use only: "
        ++ pdIndexRepr cols).data = _
      rw [data_append, data_append, data_append]
      have h1 : ("unknown coordinate key in [").data
          = ("unknown coordinate key").data ++ (" in [").data := by decide
      rw [h1]
      simp [List.append_assoc]
  · intro hdims hne habs
    have hall : xcoords.all (fun xkey => cols.contains (pyLower xkey)) = true :=
      List.all_eq_true.mpr fun k hk => scontains_iff.mpr (hdims k hk)
    have hnvall : ¬ (xvars.all (fun xkey => cols.contains (pyLower xkey)) = true) := by
      intro hc
      obtain ⟨v, hv⟩ := List.exists_mem_of_ne_nil xvars hne
      exact habs v hv (scontains_iff.mp (List.all_eq_true.mp hc v hv))
    have hfilter : xvars.filter (fun xkey => cols.contains (pyLower xkey)) = [] := by
      rw [List.filter_eq_nil_iff]
      intro v hv hc
      exact habs v hv (scontains_iff.mp hc)
    unfold processGroup
    rw [if_neg (not_not_intro hall), if_pos hnvall, hfilter]
    rfl
  · exact processGroup_partial_vars cols xcoords xvars

/-- Witness for C3 at concrete inputs, one per conjunct: a group with an
unknown dimension key is fatal; a group whose only variables are absent
is fatal; a group with one present and one absent variable is reduced to
the present one with a warning. -/
theorem claim_C3_group_validation_witness :
    processGroup ["time", "gdalt", "a"] ["time", "gdlat"] ["a"] =
      Except.error (.unknownCoordKey ["time", "gdlat"] ["time", "gdalt", "a"]) ∧
    processGroup ["time", "gdalt", "a"] ["time", "gdalt"] ["b", "c"] =
      Except.error (.allDataVarsUnknown ["b", "c"]) ∧
    processGroup ["time", "gdalt", "a"] ["time", "gdalt"] ["a", "b"] =
      Except.ok (["a"], [.unknownDataVars ["b"] ["a"]]) := by
  have h1 := (claim_C3_group_validation ["time", "gdalt", "a"] ["time", "gdlat"] ["a"]).1
    ⟨"gdlat", by decide, by decide⟩
  have h2 := (claim_C3_group_validation ["time", "gdalt", "a"] ["time", "gdalt"] ["b", "c"]).2.1
    (by decide) (by decide) (by decide)
  have h3 := (claim_C3_group_validation ["time", "gdalt", "a"] ["time", "gdalt"] ["a", "b"]).2.2
    (by decide) ⟨"a", by decide, by decide⟩ ⟨"b", by decide, by decide⟩
  exact ⟨h1.1, h2, h3.trans (congrArg Except.ok (by decide))⟩

/-- C10 (implicit frame effect): when a coordinate schema is passed to
`load` as a dict and some declared data variables of a group are absent
from the file, the group loop writes the reduced (present-only) list
back into the caller-supplied dict, so after the call the schema maps
that group to a list different from the originally declared one.  The
dict state is threaded explicitly: `loadSchemaPass` returns the dict as
the loop leaves it. -/
theorem claim_C10_schema_dict_mutated (cols xcoords xvars : List String)
    (hdims : ∀ xkey ∈ xcoords, pyLower xkey ∈ cols)
    (hpresent : ∃ v ∈ xvars, pyLower v ∈ cols)
    (habsent : ∃ v ∈ xvars, pyLower v ∉ cols) :
    loadSchemaPass cols [(xcoords, xvars)] =
      Except.ok ([(xcoords, xvars.filter (fun v => cols.contains (pyLower v)))],
        [.unknownDataVars (xvars.filter (fun v => ! cols.contains (pyLower v)))
          (xvars.filter (fun v => cols.contains (pyLower v)))]) ∧
    xvars.filter (fun v => cols.contains (pyLower v)) ≠ xvars := by
  have hpg := processGroup_partial_vars cols xcoords xvars hdims hpresent habsent
  constructor
  · have hco : coordOrder [(xcoords, xvars)] = [xcoords] := by
      simp [coordOrder, lenDict, dictInsert, sortDesc, insertDesc, List.lookup]
    unfold loadSchemaPass
    rw [hco]
    simp [List.foldlM, hpg, dictUpdate, List.lookup]
  · intro heq
    obtain ⟨va, hva, hvaout⟩ := habsent
    rw [← heq] at hva
    exact hvaout (scontains_iff.mp (List.mem_filter.mp hva).2)

/-- Witness for C10: a single-group schema declaring `a` and `b` over
`(time, gdalt)` against a table holding only `a` comes back from the
loop with its entry reduced to `[a]`, a list different from the
declared `[a, b]`. -/
theorem claim_C10_schema_dict_mutated_witness :
    loadSchemaPass ["time", "gdalt", "a"] [(["time", "gdalt"], ["a", "b"])] =
      Except.ok ([(["time", "gdalt"], ["a"])], [.unknownDataVars ["b"] ["a"]]) ∧
    (["a"] : List String) ≠ ["a", "b"] := by
  have h := claim_C10_schema_dict_mutated ["time", "gdalt", "a"] ["time", "gdalt"] ["a", "b"]
    (by decide) ⟨"a", by decide, by decide⟩ ⟨"b", by decide, by decide⟩
  exact ⟨h.1.trans (congrArg Except.ok (by decide)), by decide⟩

/-- C1 (evaluation at a failing input): the post-merge consistency check
raises only in the have-extra case; when recovered variables are fewer
than the declared columns the `missing: ...` string is computed but the
`raise` sits in the other branch, so the check returns without error
even though the counts mismatch and variable `b` is missing. -/
theorem claim_C1_missing_mismatch_no_error :
    postMergeCheck ["time", "gdalt", "a", "b"] ["time", "gdalt", "a"] = Except.ok () ∧
    (["time", "gdalt", "a"] : List String).length ≠
      (["time", "gdalt", "a", "b"] : List String).length ∧
    missingEstr ["time", "gdalt", "a", "b"] ["time", "gdalt", "a"] = "missing: b" ∧
    (∀ lcols testVars : List String, lcols.length < testVars.length →
      postMergeCheck lcols testVars =
        Except.error (.coordMergeMismatch testVars.length lcols.length
          (extraEstr lcols testVars))) := by
  refine ⟨rfl, by decide, by decide, ?_⟩
  intro lcols testVars hlt
  unfold postMergeCheck
  rw [if_pos (Nat.ne_of_gt hlt), if_neg (Nat.not_lt.mpr (Nat.le_of_lt hlt))]

/-- Witness for C1's universally quantified conjunct: a merge that
recovers an extra variable does raise. -/
theorem claim_C1_missing_mismatch_no_error_witness :
    postMergeCheck ["time"] ["time", "zippy"] =
      Except.error (.coordMergeMismatch 2 1 (extraEstr ["time"] ["time", "zippy"])) := by
  have h := (claim_C1_missing_mismatch_no_error).2.2.2 ["time"] ["time", "zippy"] (by decide)
  exact h

/-- C2 (evaluation at a failing input): the ordering dict is keyed by
group length, so of two declared groups with the same number of
dimensions only the later one survives into the processing order; the
earlier group is dropped, not merely processed later. -/
theorem claim_C2_equal_length_group_dropped :
    coordOrder [(["time", "a"], ["x"]), (["time", "b"], ["y"])] = [["time", "b"]] ∧
    ["time", "a"] ∉ coordOrder [(["time", "a"], ["x"]), (["time", "b"], ["y"])] ∧
    (["time", "a"], (["x"] : List String)) ∈
      ([(["time", "a"], ["x"]), (["time", "b"], ["y"])] : Schema) := by
  refine ⟨by decide, by decide, by decide⟩

/-- Counterexample for C6: an experiment with a valid id whose reported
date range is the single day 0 is still judged good for a requested
date of day 1, although day 1 lies outside the reported start-to-end
range, because the code extends the end of the range by one day. -/
theorem claim_C6_good_exp_counterexample :
    good_exp ⟨1, 0, 0⟩ (some [1]) = true ∧
    ¬ ((⟨1, 0, 0⟩ : MadrigalExperiment).startDate ≤ 1 ∧
       (1 : Int) ≤ (⟨1, 0, 0⟩ : MadrigalExperiment).endDate) := by
  refine ⟨rfl, by decide⟩

/-- C6 (amended): `good_exp` returns `False` for the sentinel id `-1`
regardless of any date filter; returns `True` for any other id when no
date filter is supplied; and, when a date filter is supplied, returns
`True` exactly when the id is not the sentinel and some requested date
lies between the experiment's start date and one day after its end
date, both bounds inclusive. -/
theorem claim_C6_good_exp_amended (exp : MadrigalExperiment) (dates : List Int) :
    (exp.id = -1 → ∀ dateArray, good_exp exp dateArray = false) ∧
    (exp.id ≠ -1 → good_exp exp none = true) ∧
    (good_exp exp (some dates) = true ↔
      exp.id ≠ -1 ∧ ∃ d ∈ dates, exp.startDate ≤ d ∧ d ≤ exp.endDate + 1) := by
  refine ⟨?_, ?_, ?_⟩
  · intro hid dateArray
    unfold good_exp
    rw [if_neg (not_not_intro hid)]
  · intro hid
    unfold good_exp
    rw [if_pos hid]
  · by_cases hid : exp.id = -1
    · unfold good_exp
      rw [if_neg (not_not_intro hid)]
      simp [hid]
    · unfold good_exp
      rw [if_pos hid]
      simp [hid, List.any_eq_true]

/-- Witness for C6 (amended) at concrete experiments: the sentinel id is
bad even with a matching filter, a valid id with no filter is good, and
a valid id with a requested date inside the padded range is good. -/
theorem claim_C6_good_exp_amended_witness :
    good_exp ⟨-1, 0, 5⟩ (some [3]) = false ∧
    good_exp ⟨7, 0, 5⟩ none = true ∧
    good_exp ⟨7, 0, 5⟩ (some [6]) = true := by
  refine ⟨(claim_C6_good_exp_amended ⟨-1, 0, 5⟩ [3]).1 rfl (some [3]),
    (claim_C6_good_exp_amended ⟨7, 0, 5⟩ []).2.1 (by decide), ?_⟩
  exact (claim_C6_good_exp_amended ⟨7, 0, 5⟩ [6]).2.2.mpr ⟨by decide, 6, by decide, by decide⟩

/-- Counterexample for C7: with a known instrument code, empty-string
user and password credentials pass `_check_madrigal_params` without any
error, although the claim says an empty string for user or password is
rejected. -/
theorem claim_C7_empty_credentials_accepted :
    _check_madrigal_params (some "120") (some "") (some "") = Except.ok () := rfl

/-- C7 (amended): `_check_madrigal_params` succeeds exactly when the
`str()` of the instrument code is a known Madrigal instrument code and
both user and password are strings (`None` and non-string values are
rejected); the emptiness of the credential strings is not checked. -/
theorem claim_C7_param_check_amended (instCode user password : Option String) :
    _check_madrigal_params instCode user password = Except.ok () ↔
      (pyStrOfOpt instCode ∈ (known_madrigal_inst_codes none).map Prod.fst ∧
       user.isSome = true ∧ password.isSome = true) := by
  unfold _check_madrigal_params
  by_cases h1 : ((known_madrigal_inst_codes none).map Prod.fst).contains
      (pyStrOfOpt instCode) = true
  · rw [if_neg (not_not_intro h1)]
    by_cases h2 : (user.isSome && password.isSome) = true
    · rw [if_neg (not_not_intro h2)]
      have h3 : user.isSome = true ∧ password.isSome = true := by simpa using h2
      simp [scontains_iff.mp h1, h3.1, h3.2]
    · rw [if_pos h2]
      constructor
      · intro hcontra
        exact absurd hcontra (by simp)
      · rintro ⟨-, hu, hp⟩
        exact absurd (show (user.isSome && password.isSome) = true by simp [hu, hp]) h2
  · rw [if_pos h1]
    constructor
    · intro hcontra
      exact absurd hcontra (by simp)
    · rintro ⟨hmem, -, -⟩
      exact absurd (scontains_iff.mpr hmem) h1

/-- Witness for C7 (amended): a known code with real string credentials
passes, and an unknown code fails, exactly as the equivalence states. -/
theorem claim_C7_param_check_amended_witness :
    _check_madrigal_params (some "10") (some "user name") (some "name@email") =
      Except.ok () ∧
    ¬ (_check_madrigal_params none (some "user name") (some "name@email") =
      Except.ok ()) := by
  constructor
  · exact (claim_C7_param_check_amended (some "10") (some "user name")
      (some "name@email")).mpr ⟨by decide, rfl, rfl⟩
  · intro hcontra
    have h := (claim_C7_param_check_amended none (some "user name")
      (some "name@email")).mp hcontra
    exact absurd h.1 (by decide)

theorem routeStep_buckets (fnames : List String) (acc : List (String × List String))
    (hacc : ∀ p ∈ acc, ∀ g ∈ p.2, routeFname g = some p.1) :
    ∀ p ∈ fnames.foldl routeStep acc, ∀ g ∈ p.2, routeFname g = some p.1 := by
  induction fnames generalizing acc with
  | nil => exact hacc
  | cons f t ih =>
    apply ih
    intro p hp g hg
    unfold routeStep at hp
    cases hr : routeFname f with
    | none =>
      rw [hr] at hp
      exact hacc p hp g hg
    | some ftype =>
      rw [hr] at hp
      obtain ⟨q, hq, hpq⟩ := List.mem_map.mp hp
      by_cases hqf : q.1 = ftype
      · rw [if_pos hqf] at hpq
        rw [← hpq] at hg ⊢
        rcases List.mem_append.mp hg with hg1 | hg2
        · exact hacc q hq g hg1
        · rw [List.mem_singleton.mp hg2, hqf]
          exact hr
      · rw [if_neg hqf] at hpq
        rw [← hpq] at hg ⊢
        exact hacc q hq g hg

/-- Counterexample for C8: a filename in which the type name `hdf5`
occurs at the very start (index 0) is routed to no file type at all,
because the source tests `fname.find(ftype) > 0` rather than `>= 0`;
the claim says any filename in which a type name occurs is assigned. -/
theorem claim_C8_match_at_start_skipped :
    pyFind "hdf5_data_file" "hdf5" = 0 ∧
    routeFname "hdf5_data_file" = none ∧
    buildLoadFileTypes ["hdf5_data_file"] =
      [("hdf5", []), ("netCDF4", []), ("simple", [])] := by
  refine ⟨by decide, by decide, by decide⟩

/-- C8 (amended): each filename is assigned to the first of the three
file types (`hdf5`, `netCDF4`, `simple`, in that fixed order) whose name
occurs in the filename at a strictly positive index; a filename matching
no type that way is routed nowhere and lands in no bucket, with no
warning and no error. -/
theorem claim_C8_routing_amended (fnames : List String) (fname : String) :
    (0 < pyFind fname "hdf5" → routeFname fname = some "hdf5") ∧
    (pyFind fname "hdf5" ≤ 0 → 0 < pyFind fname "netCDF4" →
      routeFname fname = some "netCDF4") ∧
    (pyFind fname "hdf5" ≤ 0 → pyFind fname "netCDF4" ≤ 0 → 0 < pyFind fname "simple" →
      routeFname fname = some "simple") ∧
    (pyFind fname "hdf5" ≤ 0 → pyFind fname "netCDF4" ≤ 0 → pyFind fname "simple" ≤ 0 →
      routeFname fname = none ∧ ∀ p ∈ buildLoadFileTypes fnames, fname ∉ p.2) := by
  refine ⟨?_, ?_, ?_, ?_⟩
  · intro h1
    simp [routeFname, fileTypeKeys, file_types, List.find?, h1]
  · intro h1 h2
    simp [routeFname, fileTypeKeys, file_types, List.find?, Int.not_lt.mpr h1, h2]
  · intro h1 h2 h3
    simp [routeFname, fileTypeKeys, file_types, List.find?, Int.not_lt.mpr h1,
      Int.not_lt.mpr h2, h3]
  · intro h1 h2 h3
    have hnone : routeFname fname = none := by
      simp [routeFname, fileTypeKeys, file_types, List.find?, Int.not_lt.mpr h1,
        Int.not_lt.mpr h2, Int.not_lt.mpr h3]
    refine ⟨hnone, ?_⟩
    intro p hp hmem
    have hroute := routeStep_buckets fnames (fileTypeKeys.map (fun ftype => (ftype, [])))
      (by intro q hq g hg; obtain ⟨ft, -, hft⟩ := List.mem_map.mp hq; rw [← hft] at hg; cases hg)
      p hp fname hmem
    rw [hnone] at hroute
    cases hroute

/-- Witness for C8 (amended): a path containing `.hdf5` after its first
character is routed to the `hdf5` bucket type. -/
theorem claim_C8_routing_amended_witness :
    routeFname "/data/test.hdf5" = some "hdf5" := by
  exact (claim_C8_routing_amended [] "/data/test.hdf5").1 (by decide)

/-!
Real-number embedding of `pysatMadrigal/utils/coords.py`.  Python floats
are modelled as real numbers; numpy `radians`, `degrees`, `tan`,
`arctan`, `sin`, `cos` and `sqrt` become the Mathlib real functions and
numpy `arctan2` becomes the complex argument (both take values in the
interval from `-π` exclusive to `π` inclusive, with `arctan2 0 0 = 0`).
-/

noncomputable section

/-- numpy `radians`: degrees to radians. -/
def radians (d : ℝ) : ℝ := d * Real.pi / 180

/-- numpy `degrees`: radians to degrees. -/
def degrees (r : ℝ) : ℝ := r * 180 / Real.pi

/-- numpy `arctan2 y x`: the angle of the point `(x, y)`, modelled as
the complex argument of `x + y i`. -/
def arctan2 (y x : ℝ) : ℝ := Complex.arg (x + y * Complex.I)

/-- WGS-84 semi-major axis (`coords.py`, line 41). -/
def rad_eq : ℝ := 6378.1370

/-- WGS-84 flattening (`coords.py`, line 42). -/
def flat : ℝ := 1.0 / 298.257223563

/-- WGS-84 semi-minor axis (`coords.py`, line 43). -/
def rad_pol : ℝ := rad_eq * (1.0 - flat)

/-- `geodetic_to_geocentric` (`coords.py`, lines 9-69): the latitude is
re-mapped through `arctan` of a scaled tangent (the scale is inverted
in the forward direction), the longitude passes through unchanged, and
the Earth radius is evaluated at the output latitude. -/
def geodetic_to_geocentric (latIn lonIn : ℝ) (inv : Bool) : ℝ × ℝ × ℝ :=
  let rad_ratio_sq0 := (rad_eq / rad_pol) ^ 2
  let eprime_sq := rad_ratio_sq0 - 1.0
  let tan_in := Real.tan (radians latIn)
  let rad_ratio_sq := if inv then rad_ratio_sq0 else 1.0 / rad_ratio_sq0
  let lat_out := degrees (Real.arctan (rad_ratio_sq * tan_in))
  let rad_earth := rad_eq / Real.sqrt (1.0 + eprime_sq * (Real.sin (radians lat_out)) ^ 2)
  (lat_out, lonIn, rad_earth)

/-- `spherical_to_cartesian` (`coords.py`, lines 139-189): forward turns
azimuth/elevation/distance into cartesian components through the zenith
angle; the inverse recovers azimuth and elevation through `arctan2` and
the distance through the root of the squared sum. -/
def spherical_to_cartesian (azIn elIn rIn : ℝ) (inv : Bool) : ℝ × ℝ × ℝ :=
  if inv then
    let xy_sq := azIn ^ 2 + elIn ^ 2
    let z_out := Real.sqrt (xy_sq + rIn ^ 2)
    let y_out := 90.0 - degrees (arctan2 (Real.sqrt xy_sq) rIn)
    let x_out := degrees (arctan2 elIn azIn)
    (x_out, y_out, z_out)
  else
    let zen_in := radians (90.0 - elIn)
    (rIn * Real.sin zen_in * Real.cos (radians azIn),
     rIn * Real.sin zen_in * Real.sin (radians azIn),
     rIn * Real.cos zen_in)

/-- `geodetic_to_geocentric_horizontal` (`coords.py`, lines 72-136):
latitude, longitude and Earth radius are delegated to
`geodetic_to_geocentric`; the azimuth/elevation pair is rotated about
the local x-axis by the deviation from vertical. -/
def geodetic_to_geocentric_horizontal (latIn lonIn azIn elIn : ℝ) (inv : Bool) :
    ℝ × ℝ × ℝ × ℝ × ℝ :=
  let az := radians azIn
  let el := radians elIn
  let g := geodetic_to_geocentric latIn lonIn inv
  let dev_vert := radians (latIn - g.1)
  let x_local := Real.cos el * Real.sin az
  let y_local := Real.cos el * Real.cos az
  let z_local := Real.sin el
  let x_out := x_local
  let y_out := y_local * Real.cos dev_vert + z_local * Real.sin dev_vert
  let z_out := -y_local * Real.sin dev_vert + z_local * Real.cos dev_vert
  (g.1, g.2.1, g.2.2, degrees (arctan2 x_out y_out),
   degrees (Real.arctan (z_out / Real.sqrt (x_out ^ 2 + y_out ^ 2))))

/-- `global_to_local_cartesian` (`coords.py`, lines 192-276): the local
origin is converted to global cartesian through `spherical_to_cartesian`
and the transform is a translation combined with a meridian rotation
about the z-axis and an axial-tilt rotation about the x-axis, applied in
the reverse order with opposite angles in the inverse direction. -/
def global_to_local_cartesian (xIn yIn zIn latCent lonCent radCent : ℝ) (inv : Bool) :
    ℝ × ℝ × ℝ :=
  let c := spherical_to_cartesian lonCent latCent radCent false
  let ax_rot := radians (90.0 - latCent)
  let mer_rot := radians (lonCent - 90.0)
  if inv then
    let xrot := xIn
    let yrot := yIn * Real.cos ax_rot - zIn * Real.sin ax_rot
    let zrot := yIn * Real.sin ax_rot + zIn * Real.cos ax_rot
    (xrot * Real.cos mer_rot - yrot * Real.sin mer_rot + c.1,
     xrot * Real.sin mer_rot + yrot * Real.cos mer_rot + c.2.1,
     zrot + c.2.2)
  else
    let xtrans := xIn - c.1
    let ytrans := yIn - c.2.1
    let ztrans := zIn - c.2.2
    let xrot := xtrans * Real.cos (-mer_rot) - ytrans * Real.sin (-mer_rot)
    let yrot := xtrans * Real.sin (-mer_rot) + ytrans * Real.cos (-mer_rot)
    let zrot := ztrans
    (xrot,
     yrot * Real.cos (-ax_rot) - zrot * Real.sin (-ax_rot),
     yrot * Real.sin (-ax_rot) + zrot * Real.cos (-ax_rot))

theorem degrees_radians (x : ℝ) : degrees (radians x) = x := by
  unfold degrees radians
  field_simp

theorem radians_degrees (x : ℝ) : radians (degrees x) = x := by
  unfold degrees radians
  field_simp

theorem radians_lt_pi_div_two {x : ℝ} (h : x < 90) : radians x < Real.pi / 2 := by
  unfold radians
  have h2 : 0 < (90 - x) * Real.pi := mul_pos (by linarith) Real.pi_pos
  nlinarith [h2]

theorem neg_pi_div_two_lt_radians {x : ℝ} (h : -90 < x) : -(Real.pi / 2) < radians x := by
  unfold radians
  have h2 : 0 < (x + 90) * Real.pi := mul_pos (by linarith) Real.pi_pos
  nlinarith [h2]

theorem radians_pos {x : ℝ} (h : 0 < x) : 0 < radians x := by
  unfold radians
  exact div_pos (mul_pos h Real.pi_pos) (by norm_num)

theorem radians_lt_pi {x : ℝ} (h : x < 180) : radians x < Real.pi := by
  unfold radians
  have h2 : 0 < (180 - x) * Real.pi := mul_pos (by linarith) Real.pi_pos
  nlinarith [h2]

theorem neg_pi_lt_radians {x : ℝ} (h : -180 < x) : -Real.pi < radians x := by
  unfold radians
  have h2 : 0 < (x + 180) * Real.pi := mul_pos (by linarith) Real.pi_pos
  nlinarith [h2]

theorem radians_le_pi {x : ℝ} (h : x ≤ 180) : radians x ≤ Real.pi := by
  unfold radians
  have h2 : 0 ≤ (180 - x) * Real.pi := mul_nonneg (by linarith) Real.pi_pos.le
  nlinarith [h2]

theorem rad_eq_pos : 0 < rad_eq := by
  unfold rad_eq
  norm_num

theorem rad_pol_pos : 0 < rad_pol := by
  unfold rad_pol rad_eq flat
  norm_num

theorem rad_ratio_sq_pos : 0 < (rad_eq / rad_pol) ^ 2 :=
  pow_pos (div_pos rad_eq_pos rad_pol_pos) 2

theorem geodetic_lat_roundtrip (lat lonA lonB : ℝ) (h1 : -90 < lat) (h2 : lat < 90) :
    (geodetic_to_geocentric (geodetic_to_geocentric lat lonA false).1 lonB true).1 = lat := by
  have hR := rad_ratio_sq_pos
  simp only [geodetic_to_geocentric, Bool.false_eq_true, if_false, if_true]
  rw [radians_degrees, Real.tan_arctan]
  have hcancel : (rad_eq / rad_pol) ^ 2 * (1.0 / (rad_eq / rad_pol) ^ 2
      * Real.tan (radians lat)) = Real.tan (radians lat) := by
    have hne1 : rad_eq ≠ 0 := ne_of_gt rad_eq_pos
    have hne2 : rad_pol ≠ 0 := ne_of_gt rad_pol_pos
    field_simp
    ring
  rw [hcancel, Real.arctan_tan (neg_pi_div_two_lt_radians h1) (radians_lt_pi_div_two h2),
    degrees_radians]

theorem arctan2_mul_cos_sin {ρ θ : ℝ} (hρ : 0 < ρ) (hθ1 : -Real.pi < θ)
    (hθ2 : θ ≤ Real.pi) :
    arctan2 (ρ * Real.sin θ) (ρ * Real.cos θ) = θ := by
  unfold arctan2
  have hc : ((ρ * Real.cos θ : ℝ) : ℂ) + ((ρ * Real.sin θ : ℝ) : ℂ) * Complex.I
      = ((ρ : ℝ) : ℂ) * (Complex.cos (θ : ℂ) + Complex.sin (θ : ℂ) * Complex.I) := by
    rw [← Complex.ofReal_cos, ← Complex.ofReal_sin]
    push_cast
    ring
  rw [hc]
  exact Complex.arg_mul_cos_add_sin_mul_I hρ ⟨hθ1, hθ2⟩

theorem spherical_roundtrip (az el r : ℝ) (haz1 : -180 < az) (haz2 : az ≤ 180)
    (hel1 : -90 < el) (hel2 : el < 90) (hr : 0 < r) :
    spherical_to_cartesian (spherical_to_cartesian az el r false).1
      (spherical_to_cartesian az el r false).2.1
      (spherical_to_cartesian az el r false).2.2 true = (az, el, r) := by
  have hz1 : 0 < radians (90.0 - el) := radians_pos (by linarith)
  have hz2 : radians (90.0 - el) < Real.pi := radians_lt_pi (by linarith)
  have hsin : 0 < Real.sin (radians (90.0 - el)) :=
    Real.sin_pos_of_pos_of_lt_pi hz1 hz2
  have hrs : 0 < r * Real.sin (radians (90.0 - el)) := mul_pos hr hsin
  have hxy : (r * Real.sin (radians (90.0 - el)) * Real.cos (radians az)) ^ 2
      + (r * Real.sin (radians (90.0 - el)) * Real.sin (radians az)) ^ 2
      = (r * Real.sin (radians (90.0 - el))) ^ 2 := by
    linear_combination (r * Real.sin (radians (90.0 - el))) ^ 2
      * Real.sin_sq_add_cos_sq (radians az)
  have hsqrt_xy : Real.sqrt ((r * Real.sin (radians (90.0 - el)) * Real.cos (radians az)) ^ 2
      + (r * Real.sin (radians (90.0 - el)) * Real.sin (radians az)) ^ 2)
      = r * Real.sin (radians (90.0 - el)) := by
    rw [hxy]
    exact Real.sqrt_sq hrs.le
  have hfull : (r * Real.sin (radians (90.0 - el)) * Real.cos (radians az)) ^ 2
      + (r * Real.sin (radians (90.0 - el)) * Real.sin (radians az)) ^ 2
      + (r * Real.cos (radians (90.0 - el))) ^ 2 = r ^ 2 := by
    linear_combination (r * Real.sin (radians (90.0 - el))) ^ 2
        * Real.sin_sq_add_cos_sq (radians az)
      + r ^ 2 * Real.sin_sq_add_cos_sq (radians (90.0 - el))
  simp only [spherical_to_cartesian, Bool.false_eq_true, if_false, if_true, Prod.mk.injEq]
  refine ⟨?_, ?_, ?_⟩
  · rw [arctan2_mul_cos_sin hrs (neg_pi_lt_radians haz1) (radians_le_pi haz2),
      degrees_radians]
  · rw [hsqrt_xy, arctan2_mul_cos_sin hr (by linarith [Real.pi_pos]) hz2.le,
      degrees_radians]
    ring
  · rw [hfull]
    exact Real.sqrt_sq hr.le

theorem global_local_roundtrip (x y z latC lonC radC : ℝ) :
    global_to_local_cartesian (global_to_local_cartesian x y z latC lonC radC false).1
      (global_to_local_cartesian x y z latC lonC radC false).2.1
      (global_to_local_cartesian x y z latC lonC radC false).2.2
      latC lonC radC true = (x, y, z) := by
  have ha := Real.sin_sq_add_cos_sq (radians (90.0 - latC))
  have hm := Real.sin_sq_add_cos_sq (radians (lonC - 90.0))
  simp only [global_to_local_cartesian, Bool.false_eq_true, if_false, if_true,
    Real.cos_neg, Real.sin_neg, Prod.mk.injEq]
  set sa := Real.sin (radians (90.0 - latC))
  set ca := Real.cos (radians (90.0 - latC))
  set sm := Real.sin (radians (lonC - 90.0))
  set cm := Real.cos (radians (lonC - 90.0))
  set c1 := (spherical_to_cartesian lonC latC radC false).1
  set c2 := (spherical_to_cartesian lonC latC radC false).2.1
  set c3 := (spherical_to_cartesian lonC latC radC false).2.2
  refine ⟨?_, ?_, ?_⟩
  · linear_combination (((x - c1) * sm - (y - c2) * cm) * sm) * ha + (x - c1) * hm
  · linear_combination ((-(x - c1) * sm + (y - c2) * cm) * cm) * ha + (y - c2) * hm
  · linear_combination (z - c3) * ha

theorem abs_tol_of_eq {a b : ℝ} (h : a = b) : |a - b| < 1e-6 := by
  rw [h, sub_self, abs_zero]
  norm_num

theorem geodetic_lon_pass (la lo : ℝ) (b : Bool) :
    (geodetic_to_geocentric la lo b).2.1 = lo := by
  simp only [geodetic_to_geocentric]

theorem horizontal_lat_pass (la lo aIn eIn : ℝ) (b : Bool) :
    (geodetic_to_geocentric_horizontal la lo aIn eIn b).1
      = (geodetic_to_geocentric la lo b).1 := by
  simp only [geodetic_to_geocentric_horizontal]

theorem horizontal_lon_pass (la lo aIn eIn : ℝ) (b : Bool) :
    (geodetic_to_geocentric_horizontal la lo aIn eIn b).2.1 = lo := by
  simp only [geodetic_to_geocentric_horizontal]
  rw [geodetic_lon_pass]

/-- C9: for all inputs in the valid domain, composing each geometry
transform with its inverse returns the original input to within 1e-6:
the latitude and longitude inputs of `geodetic_to_geocentric` (its
third return component, the Earth radius, has no input counterpart);
the latitude and longitude inputs of
`geodetic_to_geocentric_horizontal` (az/el excluded, as in the claim);
all three inputs of `spherical_to_cartesian` (azimuth in the half-open
interval from -180 to 180, elevation strictly between -90 and 90,
positive distance); and all three cartesian inputs of
`global_to_local_cartesian` (no domain restriction).  Each bound holds
because the round trip is exact over the reals. -/
theorem claim_C9_geometry_roundtrips
    (lat lon azh elh az el r gx gy gz latC lonC radC : ℝ)
    (hlat1 : -90 < lat) (hlat2 : lat < 90)
    (haz1 : -180 < az) (haz2 : az ≤ 180)
    (hel1 : -90 < el) (hel2 : el < 90) (hr : 0 < r) :
    (|(geodetic_to_geocentric (geodetic_to_geocentric lat lon false).1
        (geodetic_to_geocentric lat lon false).2.1 true).1 - lat| < 1e-6 ∧
     |(geodetic_to_geocentric (geodetic_to_geocentric lat lon false).1
        (geodetic_to_geocentric lat lon false).2.1 true).2.1 - lon| < 1e-6) ∧
    (|(geodetic_to_geocentric_horizontal
        (geodetic_to_geocentric_horizontal lat lon azh elh false).1
        (geodetic_to_geocentric_horizontal lat lon azh elh false).2.1
        (geodetic_to_geocentric_horizontal lat lon azh elh false).2.2.2.1
        (geodetic_to_geocentric_horizontal lat lon azh elh false).2.2.2.2 true).1
        - lat| < 1e-6 ∧
     |(geodetic_to_geocentric_horizontal
        (geodetic_to_geocentric_horizontal lat lon azh elh false).1
        (geodetic_to_geocentric_horizontal lat lon azh elh false).2.1
        (geodetic_to_geocentric_horizontal lat lon azh elh false).2.2.2.1
        (geodetic_to_geocentric_horizontal lat lon azh elh false).2.2.2.2 true).2.1
        - lon| < 1e-6) ∧
    (|(spherical_to_cartesian (spherical_to_cartesian az el r false).1
        (spherical_to_cartesian az el r false).2.1
        (spherical_to_cartesian az el r false).2.2 true).1 - az| < 1e-6 ∧
     |(spherical_to_cartesian (spherical_to_cartesian az el r false).1
        (spherical_to_cartesian az el r false).2.1
        (spherical_to_cartesian az el r false).2.2 true).2.1 - el| < 1e-6 ∧
     |(spherical_to_cartesian (spherical_to_cartesian az el r false).1
        (spherical_to_cartesian az el r false).2.1
        (spherical_to_cartesian az el r false).2.2 true).2.2 - r| < 1e-6) ∧
    (|(global_to_local_cartesian
        (global_to_local_cartesian gx gy gz latC lonC radC false).1
        (global_to_local_cartesian gx gy gz latC lonC radC false).2.1
        (global_to_local_cartesian gx gy gz latC lonC radC false).2.2
        latC lonC radC true).1 - gx| < 1e-6 ∧
     |(global_to_local_cartesian
        (global_to_local_cartesian gx gy gz latC lonC radC false).1
        (global_to_local_cartesian gx gy gz latC lonC radC false).2.1
        (global_to_local_cartesian gx gy gz latC lonC radC false).2.2
        latC lonC radC true).2.1 - gy| < 1e-6 ∧
     |(global_to_local_cartesian
        (global_to_local_cartesian gx gy gz latC lonC radC false).1
        (global_to_local_cartesian gx gy gz latC lonC radC false).2.1
        (global_to_local_cartesian gx gy gz latC lonC radC false).2.2
        latC lonC radC true).2.2 - gz| < 1e-6) := by
  have hglat := geodetic_lat_roundtrip lat lon
    ((geodetic_to_geocentric lat lon false).2.1) hlat1 hlat2
  have hglon : (geodetic_to_geocentric (geodetic_to_geocentric lat lon false).1
      (geodetic_to_geocentric lat lon false).2.1 true).2.1 = lon := by
    rw [geodetic_lon_pass, geodetic_lon_pass]
  have hhlat : (geodetic_to_geocentric_horizontal
      (geodetic_to_geocentric_horizontal lat lon azh elh false).1
      (geodetic_to_geocentric_horizontal lat lon azh elh false).2.1
      (geodetic_to_geocentric_horizontal lat lon azh elh false).2.2.2.1
      (geodetic_to_geocentric_horizontal lat lon azh elh false).2.2.2.2 true).1
      = lat := by
    rw [horizontal_lat_pass, horizontal_lat_pass, horizontal_lon_pass]
    exact geodetic_lat_roundtrip lat lon lon hlat1 hlat2
  have hhlon : (geodetic_to_geocentric_horizontal
      (geodetic_to_geocentric_horizontal lat lon azh elh false).1
      (geodetic_to_geocentric_horizontal lat lon azh elh false).2.1
      (geodetic_to_geocentric_horizontal lat lon azh elh false).2.2.2.1
      (geodetic_to_geocentric_horizontal lat lon azh elh false).2.2.2.2 true).2.1
      = lon := by
    rw [horizontal_lon_pass, horizontal_lon_pass]
  have hsph := spherical_roundtrip az el r haz1 haz2 hel1 hel2 hr
  have hgl := global_local_roundtrip gx gy gz latC lonC radC
  exact ⟨⟨abs_tol_of_eq hglat, abs_tol_of_eq hglon⟩,
    ⟨abs_tol_of_eq hhlat, abs_tol_of_eq hhlon⟩,
    ⟨abs_tol_of_eq (congrArg Prod.fst hsph),
     abs_tol_of_eq (congrArg (fun p => p.2.1) hsph),
     abs_tol_of_eq (congrArg (fun p => p.2.2) hsph)⟩,
    ⟨abs_tol_of_eq (congrArg Prod.fst hgl),
     abs_tol_of_eq (congrArg (fun p => p.2.1) hgl),
     abs_tol_of_eq (congrArg (fun p => p.2.2) hgl)⟩⟩

/-- Witness for C9 at the test suite's concrete inputs: latitude 45 and
longitude 8 for the geodetic pair, azimuth 45, elevation 30 and
distance 2 for the spherical pair, and the (7000, 8000, 9000) point
about the (37.5, 289, 6380) center for the cartesian pair. -/
theorem claim_C9_geometry_roundtrips_witness :
    |(geodetic_to_geocentric (geodetic_to_geocentric 45 8 false).1
        (geodetic_to_geocentric 45 8 false).2.1 true).1 - 45| < 1e-6 ∧
    |(spherical_to_cartesian (spherical_to_cartesian 45 30 2 false).1
        (spherical_to_cartesian 45 30 2 false).2.1
        (spherical_to_cartesian 45 30 2 false).2.2 true).2.2 - 2| < 1e-6 ∧
    |(global_to_local_cartesian
        (global_to_local_cartesian 7000 8000 9000 37.5 289 6380 false).1
        (global_to_local_cartesian 7000 8000 9000 37.5 289 6380 false).2.1
        (global_to_local_cartesian 7000 8000 9000 37.5 289 6380 false).2.2
        37.5 289 6380 true).1 - 7000| < 1e-6 := by
  have h := claim_C9_geometry_roundtrips 45 8 52 63 45 30 2 7000 8000 9000 37.5 289 6380
    (by norm_num) (by norm_num) (by norm_num) (by norm_num) (by norm_num) (by norm_num)
    (by norm_num)
  exact ⟨h.1.1, h.2.2.1.2.2, h.2.2.2.1⟩

end

end PysatMadrigal
